import Mathlib

/-!
Aggregating health check server (`healthcheck.go`).

A shallow embedding of the single source file of the repository: the three
route handlers registered in `main`, the probing loop of `HandleRequest`, and
the start-up sequence of `main`.  The pieces of the Go standard library the
program calls (`http.ResponseWriter` with the content sniffing of
`http.DetectContentType` and the treatment of `HEAD` requests, `http.Error`,
`fmt.Fprintln`, `http.ServeMux` pattern selection and `strconv.Atoi`) are
embedded from their documented behaviour, each in a definition of the same
name.
-/

namespace Healthcheck

/-! ## Effects and the outside world -/

/-- What one call `client.Get(url)` gives back: the pair `(resp, err)` of the
source, reduced to the two fields the handler reads, `err` (with its message)
and `resp.StatusCode`. -/
inductive GetResult where
  | err (msg : String)
  | resp (StatusCode : Int)
  deriving DecidableEq, Repr

/-- Observable actions of the program, in the order they happen: a line handed
to the `log` package, an outbound `client.Get(url)` made by a client whose
`Timeout` field (a `time.Duration`, in nanoseconds) is `clientTimeout`, and the
call of `http.ListenAndServe(addr, mux)`. -/
inductive Effect where
  | log (msg : String)
  | get (clientTimeout : Int) (url : String)
  | listen (addr : String)
  deriving DecidableEq, Repr

/-- The targets as seen during one request: `probes i` is what `client.Get`
returns for `os.Args[i]`. -/
abbrev Probes := Nat → GetResult

/-- The package-level state the handlers read: `os.Args` and the global
`var timeout int`. -/
structure Globals where
  Args : List String
  timeout : Int
  deriving DecidableEq, Repr

/-! ## `net/http` and `fmt` as used by the handlers -/

def StatusOK : Int := 200
def StatusNotFound : Int := 404
def StatusServiceUnavailable : Int := 503

/-- The bytes of a Go string, `[]byte(s)`. -/
def bytes (s : String) : List Nat :=
  (s.data.flatMap String.utf8EncodeChar).map UInt8.toNat

/-- The header map `w.Header()`: key/value pairs (every key the program uses is
already in canonical form). -/
abbrev Header := List (String × String)

/-- Method `Header.Set`: replaces whatever is stored under `key`. -/
def Header.Set (h : Header) (key value : String) : Header :=
  h.filter (fun kv => kv.1 != key) ++ [(key, value)]

/-- Method `Header.Get`: the value stored under `key`, if any. -/
def Header.Get (h : Header) (key : String) : Option String :=
  (h.find? (fun kv => kv.1 == key)).map Prod.snd

/-- An inbound request that the server hands to the mux: the fields a handler
could read.  `path` is `r.URL.Path` as `ServeMux` matches it against the
registered patterns (requests that `ServeMux` answers on its own, such as the
redirect of a path it rewrites, reach no handler of the program). -/
structure Request where
  method : String
  path : String
  query : String
  headers : Header
  deriving DecidableEq, Repr

/-! ### Content sniffing (`http.DetectContentType`) -/

/-- Whitespace bytes of the sniffing algorithm: tab, LF, FF, CR, space. -/
def isWS (b : Nat) : Bool :=
  b == 9 || b == 10 || b == 12 || b == 13 || b == 32

/-- Tag-terminating bytes of the sniffing algorithm: space and `>`. -/
def isTT (b : Nat) : Bool :=
  b == 32 || b == 62

/-- The kinds of entry of the table `sniffSignatures`. -/
inductive SniffSig where
  | html (h : List Nat)
  | masked (mask pat : List Nat) (skipWS : Bool) (ct : String)
  | exact (sig : List Nat) (ct : String)
  | mp4
  | text
  deriving Repr

/-- The comparison loop of `htmlSig.match`: letters of the signature are
compared case-insensitively (`db &= 0xDF`). -/
def htmlMatches : List Nat → List Nat → Bool
  | [], _ => true
  | _ :: _, [] => false
  | b :: h, db :: data =>
      let db1 := if 65 ≤ b ∧ b ≤ 90 then db &&& 223 else db
      if b ≠ db1 then false else htmlMatches h data

/-- The comparison loop of `maskedSig.match`: `data[i] & mask[i] == pat[i]`. -/
def maskedMatches : List Nat → List Nat → List Nat → Bool
  | [], _, _ => true
  | pb :: pat, m :: mask, d :: data =>
      if d &&& m ≠ pb then false else maskedMatches pat mask data
  | _ :: _, _, _ => false

/-- The function `bytes.HasPrefix(data, sig)`. -/
def startsWith : List Nat → List Nat → Bool
  | _, [] => true
  | [], _ :: _ => false
  | d :: data, b :: sig => if d = b then startsWith data sig else false

/-- The loop of `mp4Sig.match`, from offset `st` in steps of four bytes up to
`boxSize`, skipping offset 12: it looks for the brand `mp4`. -/
def mp4Loop (data : List Nat) (boxSize : Nat) : Nat → Nat → String
  | 0, _ => ""
  | fuel + 1, st =>
      if st < boxSize then
        if st = 12 then mp4Loop data boxSize fuel (st + 4)
        else if (data.drop st).take 3 = [109, 112, 52] then "video/mp4"
        else mp4Loop data boxSize fuel (st + 4)
      else ""

/-- The method `match` of one signature: the content type, or `""` when the
signature does not apply. -/
def SniffSig.matchSig (data : List Nat) (firstNonWS : Nat) : SniffSig → String
  | .html h =>
      let data1 := data.drop firstNonWS
      if data1.length < h.length + 1 then ""
      else if !htmlMatches h data1 then ""
      else if !isTT (data1.getD h.length 0) then ""
      else "text/html; charset=utf-8"
  | .masked mask pat skipWS ct =>
      let data1 := if skipWS then data.drop firstNonWS else data
      if pat.length ≠ mask.length then ""
      else if data1.length < pat.length then ""
      else if !maskedMatches pat mask data1 then ""
      else ct
  | .exact sig ct =>
      if startsWith data sig then ct else ""
  | .mp4 =>
      if data.length < 12 then ""
      else
        let boxSize :=
          data.getD 0 0 * 16777216 + data.getD 1 0 * 65536 + data.getD 2 0 * 256
            + data.getD 3 0
        if data.length < boxSize ∨ boxSize % 4 ≠ 0 then ""
        else if (data.drop 4).take 4 ≠ [102, 116, 121, 112] then ""
        else mp4Loop data boxSize data.length 8
  | .text =>
      if (data.drop firstNonWS).any
          (fun b => b ≤ 8 || b == 11 || (14 ≤ b && b ≤ 26) || (28 ≤ b && b ≤ 31)) then ""
      else "text/plain; charset=utf-8"

/-- The table `sniffSignatures` of `net/http`, in its order. -/
def sniffSignatures : List SniffSig :=
  [ .html (bytes "<!DOCTYPE HTML"), .html (bytes "<HTML"), .html (bytes "<HEAD"),
    .html (bytes "<SCRIPT"), .html (bytes "<IFRAME"), .html (bytes "<H1"),
    .html (bytes "<DIV"), .html (bytes "<FONT"), .html (bytes "<TABLE"),
    .html (bytes "<A"), .html (bytes "<STYLE"), .html (bytes "<TITLE"),
    .html (bytes "<B"), .html (bytes "<BODY"), .html (bytes "<BR"),
    .html (bytes "<P"), .html (bytes "<!--"),
    .masked [255, 255, 255, 255, 255] (bytes "<?xml") true "text/xml; charset=utf-8",
    .exact (bytes "%PDF-") "application/pdf",
    .exact (bytes "%!PS-Adobe-") "application/postscript",
    -- UTF BOMs
    .masked [255, 255, 0, 0] [254, 255, 0, 0] false "text/plain; charset=utf-16be",
    .masked [255, 255, 0, 0] [255, 254, 0, 0] false "text/plain; charset=utf-16le",
    .masked [255, 255, 255, 0] [239, 187, 191, 0] false "text/plain; charset=utf-8",
    -- image types
    .exact [0, 0, 1, 0] "image/x-icon",
    .exact [0, 0, 2, 0] "image/x-icon",
    .exact (bytes "BM") "image/bmp",
    .exact (bytes "GIF87a") "image/gif",
    .exact (bytes "GIF89a") "image/gif",
    .masked [255, 255, 255, 255, 0, 0, 0, 0, 255, 255, 255, 255, 255, 255]
      (bytes "RIFF" ++ [0, 0, 0, 0] ++ bytes "WEBPVP") false "image/webp",
    .exact [137, 80, 78, 71, 13, 10, 26, 10] "image/png",
    .exact [255, 216, 255] "image/jpeg",
    -- audio and video types
    .masked [255, 255, 255, 255, 0, 0, 0, 0, 255, 255, 255, 255]
      (bytes "FORM" ++ [0, 0, 0, 0] ++ bytes "AIFF") false "audio/aiff",
    .masked [255, 255, 255] (bytes "ID3") false "audio/mpeg",
    .masked [255, 255, 255, 255, 255] (bytes "OggS" ++ [0]) false "application/ogg",
    .masked [255, 255, 255, 255, 255, 255, 255, 255] (bytes "MThd" ++ [0, 0, 0, 6]) false
      "audio/midi",
    .masked [255, 255, 255, 255, 0, 0, 0, 0, 255, 255, 255, 255]
      (bytes "RIFF" ++ [0, 0, 0, 0] ++ bytes "AVI ") false "video/avi",
    .masked [255, 255, 255, 255, 0, 0, 0, 0, 255, 255, 255, 255]
      (bytes "RIFF" ++ [0, 0, 0, 0] ++ bytes "WAVE") false "audio/wave",
    .mp4,
    .exact [26, 69, 223, 163] "video/webm",
    -- font types
    .masked (List.replicate 34 0 ++ [255, 255]) (List.replicate 34 0 ++ bytes "LP") false
      "application/vnd.ms-fontobject",
    .exact [0, 1, 0, 0] "font/ttf",
    .exact (bytes "OTTO") "font/otf",
    .exact (bytes "ttcf") "font/collection",
    .exact (bytes "wOFF") "font/woff",
    .exact (bytes "wOF2") "font/woff2",
    -- archive types
    .exact [31, 139, 8] "application/x-gzip",
    .exact (bytes "PK" ++ [3, 4]) "application/zip",
    .exact (bytes "Rar!" ++ [26, 7, 0]) "application/x-rar-compressed",
    .exact (bytes "Rar!" ++ [26, 7, 1, 0]) "application/x-rar-compressed",
    .exact [0, 97, 115, 109] "application/wasm",
    -- should be last
    .text ]

/-- The first signature of the table that applies, `application/octet-stream`
when none does. -/
def firstMatch (data : List Nat) (firstNonWS : Nat) : List SniffSig → String
  | [] => "application/octet-stream"
  | sig :: rest =>
      let ct := sig.matchSig data firstNonWS
      if ct ≠ "" then ct else firstMatch data firstNonWS rest

/-- The function `http.DetectContentType(data)`: it looks at the first 512 bytes
at most. -/
def DetectContentType (data : List Nat) : String :=
  let data1 := data.take 512
  let firstNonWS := (data1.takeWhile isWS).length
  firstMatch data1 firstNonWS sniffSignatures

/-! ### The response writer -/

/-- The state behind an `http.ResponseWriter`: whether the request is a `HEAD`
request, the header map the handler works on, whether the status line is fixed,
the status code and the headers that go out with it, the data the handler has
passed to `Write`, and the body bytes that go out to the client. -/
structure ResponseWriter where
  isHEAD : Bool
  header : Header
  wroteHeader : Bool
  status : Int
  sentHeader : Header
  written : String
  body : String
  deriving DecidableEq, Repr

/-- The writer a handler is given for the request `r`. -/
def ResponseWriter.fresh (r : Request) : ResponseWriter :=
  { isHEAD := decide (r.method = "HEAD"), header := [], wroteHeader := false, status := 0,
    sentHeader := [], written := "", body := "" }

/-- The call `w.Header().Set(key, value)`. -/
def ResponseWriter.SetHeader (w : ResponseWriter) (key value : String) : ResponseWriter :=
  { w with header := w.header.Set key value }

/-- The call `w.WriteHeader(code)`: the first call fixes the status code and the headers
that are sent; later calls change nothing. -/
def ResponseWriter.WriteHeader (w : ResponseWriter) (code : Int) : ResponseWriter :=
  if w.wroteHeader then w
  else { w with wroteHeader := true, status := code, sentHeader := w.header }

/-- The function `bodyAllowedForStatus`: no body with 1xx, 204 and 304. -/
def bodyAllowedForStatus (status : Int) : Bool :=
  if 100 ≤ status ∧ status ≤ 199 then false
  else if status = 204 then false
  else if status = 304 then false
  else true

/-- The sniffing step of the server: when the first body bytes go out and the
headers to be sent hold no `Content-Type` (and no `Content-Encoding` or
`Transfer-Encoding`), a `Content-Type` is added, the result of
`DetectContentType` on these bytes.  The handler's own map `w.Header()` is left
as it is. -/
def sniffContentType (w : ResponseWriter) (data : String) : ResponseWriter :=
  if w.body = "" ∧ w.sentHeader.Get "Content-Type" = none
      ∧ (w.sentHeader.Get "Content-Encoding").getD "" = ""
      ∧ w.sentHeader.Get "Transfer-Encoding" = none then
    { w with sentHeader := w.sentHeader ++ [("Content-Type", DetectContentType (bytes data))] }
  else w

/-- The call `w.Write(data)`: if `WriteHeader` has not been called yet, `Write` calls
`WriteHeader(http.StatusOK)` before writing the data; empty data and data for a
status without body go no further; on a `HEAD` request the server eats the
write; otherwise the data joins the body, and if the headers hold no
`Content-Type` the server adds the sniffed one.  (The server buffers the body:
the bytes sniffed are those of the first write, which for every handler of this
program is the whole body.) -/
def ResponseWriter.Write (w : ResponseWriter) (data : String) : ResponseWriter :=
  let w1 := if w.wroteHeader then w else w.WriteHeader StatusOK
  if data = "" then w1
  else if !bodyAllowedForStatus w1.status then w1
  else
    let w2 := { w1 with written := w1.written ++ data }
    if w2.isHEAD then w2
    else
      let w3 := sniffContentType w2 data
      { w3 with body := w3.body ++ data }

/-- An operand of `fmt.Fprintln`. -/
inductive Operand where
  | str (s : String)
  | int (n : Int)
  deriving DecidableEq, Repr

/-- Default (`%v`) formatting of one operand. -/
def Operand.format : Operand → String
  | .str s => s
  | .int n => toString n

/-- Function `fmt.Sprintln`: spaces are always added between operands and a newline is
appended. -/
def Sprintln (a : List Operand) : String :=
  " ".intercalate (a.map Operand.format) ++ "\n"

/-- The call `fmt.Fprintln(w, a...)`. -/
def Fprintln (w : ResponseWriter) (a : List Operand) : ResponseWriter :=
  w.Write (Sprintln a)

/-- The call `http.Error(w, error, code)`: sets `Content-Type` and
`X-Content-Type-Options`, writes the status line, then prints the message with
`fmt.Fprintln`. -/
def Error (w : ResponseWriter) (error : String) (code : Int) : ResponseWriter :=
  let w1 := w.SetHeader "Content-Type" "text/plain; charset=utf-8"
  let w2 := w1.SetHeader "X-Content-Type-Options" "nosniff"
  let w3 := w2.WriteHeader code
  Fprintln w3 [.str error]

/-- What the client receives once the handler has returned: the status code,
the header lines that stem from the handler or from content sniffing (the lines
the server adds on its own account, such as `Date` and `Content-Length`, are
left out) and the body. -/
structure Response where
  status : Int
  header : Header
  body : String
  deriving DecidableEq, Repr

/-- End of a request: the implicit `WriteHeader(200)` of a handler that
returned without writing. -/
def finishRequest (w : ResponseWriter) : Response :=
  let w1 := if w.wroteHeader then w else w.WriteHeader StatusOK
  { status := w1.status, header := w1.sentHeader, body := w1.body }

/-! ## `HandleRequest` -/

/-- Two's-complement wrap-around of a 64-bit signed product. -/
def wrapInt64 (x : Int) : Int :=
  (x + 2 ^ 63) % 2 ^ 64 - 2 ^ 63

/-- The constant `time.Second`, in nanoseconds. -/
def Second : Int := 1000000000

/-- The `Timeout` of the client built at the top of `HandleRequest`:
`time.Duration(timeout) * time.Second`. -/
def clientTimeout (timeout : Int) : Int :=
  wrapInt64 (timeout * Second)

/-- Lines 64-77: what one received `(resp, err)` does to the flag `success`,
with the lines it logs. -/
def classify (url : String) (r : GetResult) (success : Bool) : Bool × List Effect :=
  match r with
  | .err msg =>
      -- err != nil
      (false, [.log ("Error when calling '" ++ url ++ "': " ++ msg)])
  | .resp code =>
      -- err == nil
      if code ≥ 200 ∧ code < 400 then
        (success,
          [.log ("'" ++ url ++ "' returned status code " ++ toString code),
           .log " * Test succeeded"])
      else
        (false,
          [.log ("'" ++ url ++ "' returned status code " ++ toString code),
           .log " * Marking test as failed"])

/-- The loop `for i := 3; i < len(os.Args); i++` of `HandleRequest`, entered at
index `i` with `rest = os.Args[i:]`: returns the final value of `success` and
the effects of the remaining iterations. -/
def probeLoop (timeout : Int) (probes : Probes) :
    Nat → List String → Bool → Bool × List Effect
  | _, [], success => (success, [])
  | i, url :: rest, success =>
      let r := probes i
      let step := classify url r success
      let tail := probeLoop timeout probes (i + 1) rest step.1
      (tail.1,
        [.log ("Testing url: '" ++ url ++ "'..."), .get (clientTimeout timeout) url]
          ++ step.2 ++ tail.2)

/-- The handler of `/all`. -/
def HandleRequest (g : Globals) (probes : Probes) (w : ResponseWriter) (_r : Request) :
    ResponseWriter × List Effect :=
  let loop := probeLoop g.timeout probes 3 (g.Args.drop 3) true
  if loop.1 then
    (Fprintln w [.str "All: Ready", .int StatusOK],
      [.log "--- begin ---"] ++ loop.2
        ++ [.log "All: Health check succeeded", .log "--- end ---"])
  else
    (Error w "All: Health check failed" StatusServiceUnavailable,
      [.log "--- begin ---"] ++ loop.2
        ++ [.log "All: Health check failed", .log "--- end ---"])

/-- The handler registered for `/self` in `main`. -/
def selfHandler (w : ResponseWriter) (_r : Request) : ResponseWriter × List Effect :=
  let w1 := w.SetHeader "Content-Type" "text/plain"
  (Fprintln w1 [.str "Self: Ready", .int StatusOK], [])

/-- The handler registered for `/` in `main`. -/
def defaultHandler (w : ResponseWriter) (_r : Request) : ResponseWriter × List Effect :=
  let w1 := w.SetHeader "Content-Type" "text/plain"
  (Fprintln w1 [.str "Not Found", .int StatusNotFound], [])

/-- The mux built in `main`: the patterns `/all` and `/self` match exactly that
path, the pattern `/` matches every other path. -/
def mux (g : Globals) (probes : Probes) (w : ResponseWriter) (r : Request) :
    ResponseWriter × List Effect :=
  if r.path = "/all" then HandleRequest g probes w r
  else if r.path = "/self" then selfHandler w r
  else defaultHandler w r

/-- One request served: the handlers receive the package state and hand it back
as they found it (none of them assigns to `timeout` or `os.Args`). -/
def serve (g : Globals) (probes : Probes) (r : Request) :
    Globals × Response × List Effect :=
  let out := mux g probes (ResponseWriter.fresh r) r
  (g, finishRequest out.1, out.2)

/-- The server loop over a sequence of requests, each with the state of the
targets at the time it is served: the responses, in order. -/
def serveAll : Globals → List (Request × Probes) → List Response
  | _, [] => []
  | g, (r, probes) :: more =>
      let out := serve g probes r
      out.2.1 :: serveAll out.1 more

/-- The URLs of the outbound GETs in a trace, in order. -/
def probedUrls : List Effect → List String
  | [] => []
  | .get _ url :: fx => url :: probedUrls fx
  | _ :: fx => probedUrls fx

/-- A target counts as healthy when its probe returned a response with a
status code in `[200, 400)`. -/
def healthy : GetResult → Prop
  | .err _ => False
  | .resp code => 200 ≤ code ∧ code < 400

instance : DecidablePred healthy := fun r =>
  match r with
  | .err _ => isFalse (fun h => h)
  | .resp code => inferInstanceAs (Decidable (200 ≤ code ∧ code < 400))

/-! ## `strconv.Atoi` (64-bit `int`) -/

/-- The two failures of `strconv`: `ErrSyntax` and `ErrRange`. -/
inductive NumError where
  | ErrSyntax
  | ErrRange
  deriving DecidableEq, Repr

def maxUint64 : Nat := 2 ^ 64 - 1

/-- Largest and smallest value of a 64-bit `int`. -/
def maxInt : Int := 2 ^ 63 - 1
def minInt : Int := -(2 ^ 63)

/-- The helper `lower(c)` of `strconv`: `c | ('x' - 'X')`. -/
def lower (c : Nat) : Nat := c ||| 32

/-- The digit loop of `ParseUint(s, 10, 0)` with `n` accumulated so far; here
`cutoff = maxUint64/10 + 1` and `maxVal = 1<<64 - 1`.  The value is returned
together with the error, as the source does. -/
def parseUintLoop : List Nat → Nat → Nat × Option NumError
  | [], n => (n, none)
  | c :: cs, n =>
      if 48 ≤ c ∧ c ≤ 57 then
        -- d = c - '0', always below the base
        let d := c - 48
        if n ≥ maxUint64 / 10 + 1 then
          -- n*base overflows
          (maxUint64, some .ErrRange)
        else
          let n10 := (n * 10) % 2 ^ 64
          let n1 := (n10 + d) % 2 ^ 64
          if n1 < n10 ∨ n1 > maxUint64 then
            -- n+d overflows
            (maxUint64, some .ErrRange)
          else parseUintLoop cs n1
      else if 97 ≤ lower c ∧ lower c ≤ 122 then
        -- d = lower(c) - 'a' + 10 is at least the base
        (0, some .ErrSyntax)
      else
        (0, some .ErrSyntax)

/-- The call `strconv.ParseUint(s, 10, 0)`. -/
def ParseUint (s : List Nat) : Nat × Option NumError :=
  if s = [] then (0, some .ErrSyntax)
  else parseUintLoop s 0

/-- The call `strconv.ParseInt(s, 10, 0)`. -/
def ParseInt (s : List Nat) : Int × Option NumError :=
  match s with
  | [] => (0, some .ErrSyntax)
  | c :: cs =>
      -- pick off leading sign
      let neg := decide (c = 45)
      let s1 := if c = 43 then cs else if c = 45 then cs else c :: cs
      -- convert unsigned and check range
      let un := ParseUint s1
      if un.2 = some .ErrSyntax then (0, some .ErrSyntax)
      else
        let cutoff : Nat := 2 ^ 63
        if !neg ∧ un.1 ≥ cutoff then (((cutoff - 1 : Nat) : Int), some .ErrRange)
        else if neg ∧ un.1 > cutoff then (-(cutoff : Int), some .ErrRange)
        else
          let n := wrapInt64 un.1
          (if neg then wrapInt64 (-n) else n, none)

/-- The fast path loop of `Atoi`: `ch -= '0'` on a byte, a syntax error when the
result exceeds 9, otherwise `n = n*10 + int(ch)`. -/
def atoiFastLoop : List Nat → Int → Option Int
  | [], n => some n
  | ch :: cs, n =>
      let ch1 := (ch + 256 - 48) % 256
      if ch1 > 9 then none
      else atoiFastLoop cs (n * 10 + ch1)

/-- The call `strconv.Atoi(s)` where `int` has 64 bits: the fast path for
`0 < len(s) < 19`, the slow path through `ParseInt` otherwise. -/
def Atoi (s : List Nat) : Int × Option NumError :=
  if 0 < s.length ∧ s.length < 19 then
    match s with
    | [] => (0, some .ErrSyntax)
    | c :: cs =>
        let s1 := if c = 45 ∨ c = 43 then cs else c :: cs
        if (c = 45 ∨ c = 43) ∧ s1.length < 1 then (0, some .ErrSyntax)
        else
          match atoiFastLoop s1 0 with
          | none => (0, some .ErrSyntax)
          | some n => (if c = 45 then -n else n, none)
  else
    -- slow path for invalid, big, or underscored integers
    ParseInt s

/-! ## `main` -/

/-- Where `main` stands once it has exited or is blocked serving: the trace so
far, the local `port` (absent while unassigned), the package state and the exit
code (absent while the process runs). -/
structure MainState where
  effects : List Effect
  port : Option Int
  globals : Globals
  exit : Option Nat
  deriving DecidableEq, Repr

/-- The program start.  `listenErr addr` is the error `http.ListenAndServe`
returns for that address, or `none` when it does not return (the server keeps
serving).  `log.Fatal` logs its argument and calls `os.Exit(1)`. -/
def main (listenErr : String → Option String) (Args : List String) : MainState :=
  if Args.length < 4 then
    { effects := [.log "Expected URLs as command-line arguments"],
      port := none,
      globals := { Args := Args, timeout := 0 },
      exit := some 1 }
  else
    let port := (Atoi (bytes (Args.getD 1 ""))).1
    let timeout := (Atoi (bytes (Args.getD 2 ""))).1
    let addr := "0.0.0.0:" ++ toString port
    let fx : List Effect :=
      [.log ("Using health check timeout of " ++ toString timeout ++ " seconds"),
       .log ("Starting http server on 'http://localhost:" ++ toString port ++ "'"),
       .listen addr]
    match listenErr addr with
    | none =>
        { effects := fx, port := some port,
          globals := { Args := Args, timeout := timeout }, exit := none }
    | some e =>
        { effects := fx ++ [.log e], port := some port,
          globals := { Args := Args, timeout := timeout }, exit := some 1 }

/-! ## Vocabulary of the statements and concrete inputs -/

/-- Every target of the configuration `g` is healthy under `probes`. -/
def allHealthy (g : Globals) (probes : Probes) : Prop :=
  ∀ i, 3 ≤ i → i < g.Args.length → healthy (probes i)

/-- The bytes the handler that the mux selects for `r` passes to `w.Write`. -/
def routeWrites (g : Globals) (probes : Probes) (r : Request) : String :=
  (mux g probes (ResponseWriter.fresh r) r).1.written

/-- The header map `w.Header()` as the handler that the mux selects for `r`
leaves it: the headers the handler itself has set. -/
def handlerHeader (g : Globals) (probes : Probes) (r : Request) : Header :=
  (mux g probes (ResponseWriter.fresh r) r).1.header

/-- A request used in the concrete instances below. -/
def getRequest (path : String) : Request :=
  { method := "GET", path := path, query := "", headers := [] }

/-- A `HEAD` request used in the concrete instances below. -/
def headRequest (path : String) : Request :=
  { method := "HEAD", path := path, query := "", headers := [] }

/-- A configuration with two targets, used in the concrete instances below. -/
def twoTargets : Globals :=
  { Args := ["healthcheck", "8080", "5", "http://a.test", "http://b.test"], timeout := 5 }

/-- Both targets answer 200. -/
def bothUp : Probes := fun _ => .resp 200

/-- The second target refuses the connection. -/
def secondDown : Probes := fun i => if i = 4 then .err "connection refused" else .resp 200

/-- A `POST` to `/all` with a query and a header, used in the instance of C9. -/
def postAll : Request :=
  { method := "POST", path := "/all", query := "verbose=1",
    headers := [("Accept", "application/json")] }

/-- The state in which `main` exits when given too few arguments. -/
def tooFewArgs (Args : List String) : MainState :=
  { effects := [.log "Expected URLs as command-line arguments"],
    port := none,
    globals := { Args := Args, timeout := 0 },
    exit := some 1 }

/-- The number a string of decimal digits denotes, continuing from `n`. -/
def decVal : List Nat → Nat → Nat
  | [], n => n
  | c :: cs, n => decVal cs (n * 10 + (c - 48))

/-- The bound of `int` on the side of the sign of the string: `minInt` when it
begins with `-`, `maxInt` otherwise. -/
def boundOnSide (s : List Nat) : Int :=
  if s.head? = some 45 then minInt else maxInt

/-- An argument vector whose timeout is the decimal literal `2^63`. -/
def hugeTimeoutArgs : List String :=
  ["healthcheck", "8080", "9223372036854775808", "http://a.test"]

/-! ## Lemmas on the probing loop -/

theorem classify_fst (url : String) (r : GetResult) (success : Bool) :
    (classify url r success).1 = (success && decide (healthy r)) := by
  cases r with
  | err msg => simp [classify, healthy]
  | resp code =>
      by_cases h : code ≥ 200 ∧ code < 400
      · simp [classify, healthy, h]
      · have h2 : ¬ (200 ≤ code ∧ code < 400) := h
        simp [classify, healthy, h, h2]

theorem probedUrls_append (a b : List Effect) :
    probedUrls (a ++ b) = probedUrls a ++ probedUrls b := by
  induction a with
  | nil => rfl
  | cons e a ih => cases e <;> simp [probedUrls, ih]

theorem probedUrls_classify (url : String) (r : GetResult) (success : Bool) :
    probedUrls (classify url r success).2 = [] := by
  cases r with
  | err msg => simp [classify, probedUrls]
  | resp code =>
      by_cases h : code ≥ 200 ∧ code < 400 <;> simp [classify, probedUrls, h]

theorem probeLoop_fst (timeout : Int) (probes : Probes) (rest : List String) :
    ∀ (i : Nat) (success : Bool),
      (probeLoop timeout probes i rest success).1 = true ↔
        (success = true ∧ ∀ k, k < rest.length → healthy (probes (i + k))) := by
  induction rest with
  | nil => intro i success; simp [probeLoop]
  | cons url rest ih =>
      intro i success
      simp only [probeLoop, ih, classify_fst, Bool.and_eq_true, decide_eq_true_eq,
        List.length_cons]
      constructor
      · rintro ⟨⟨hs, h0⟩, hk⟩
        refine ⟨hs, ?_⟩
        intro k hklt
        cases k with
        | zero => simpa using h0
        | succ k =>
            have := hk k (by omega)
            have e : i + 1 + k = i + (k + 1) := by omega
            rw [e] at this
            exact this
      · rintro ⟨hs, hk⟩
        refine ⟨⟨hs, ?_⟩, ?_⟩
        · simpa using hk 0 (by omega)
        · intro k hklt
          have := hk (k + 1) (by omega)
          have e : i + 1 + k = i + (k + 1) := by omega
          rw [e]
          exact this

theorem probeLoop_urls (timeout : Int) (probes : Probes) (rest : List String) :
    ∀ (i : Nat) (success : Bool),
      probedUrls (probeLoop timeout probes i rest success).2 = rest := by
  induction rest with
  | nil => intro i success; simp [probeLoop, probedUrls]
  | cons url rest ih =>
      intro i success
      simp [probeLoop, probedUrls, probedUrls_append, probedUrls_classify, ih]

/-- The flag `success` at the end of the loop of `HandleRequest`. -/
theorem HandleRequest_flag (g : Globals) (probes : Probes) :
    (probeLoop g.timeout probes 3 (g.Args.drop 3) true).1 = true ↔
      ∀ i, 3 ≤ i → i < g.Args.length → healthy (probes i) := by
  rw [probeLoop_fst]
  simp only [true_and, List.length_drop]
  constructor
  · intro h i h3 hlt
    have := h (i - 3) (by omega)
    have e : 3 + (i - 3) = i := by omega
    rw [e] at this
    exact this
  · intro h k hk
    exact h (3 + k) (by omega) (by omega)

theorem Sprintln_allReady :
    Sprintln [.str "All: Ready", .int 200] = "All: Ready 200\n" := by decide

theorem Sprintln_selfReady :
    Sprintln [.str "Self: Ready", .int 200] = "Self: Ready 200\n" := by decide

theorem Sprintln_notFound :
    Sprintln [.str "Not Found", .int 404] = "Not Found 404\n" := by decide

theorem Sprintln_failed :
    Sprintln [.str "All: Health check failed"] = "All: Health check failed\n" := by decide

theorem sniff_allReady :
    DetectContentType (bytes "All: Ready 200\n") = "text/plain; charset=utf-8" := by decide

/-- The writer after `HandleRequest` when the loop leaves `success` set. -/
theorem mux_all_up (g : Globals) (probes : Probes) (r : Request)
    (hp : r.path = "/all") (h : allHealthy g probes) :
    (mux g probes (ResponseWriter.fresh r) r).1 =
      { isHEAD := decide (r.method = "HEAD"), header := [], wroteHeader := true,
        status := 200,
        sentHeader :=
          if r.method = "HEAD" then [] else [("Content-Type", "text/plain; charset=utf-8")],
        written := "All: Ready 200\n",
        body := if r.method = "HEAD" then "" else "All: Ready 200\n" } := by
  have hf := (HandleRequest_flag g probes).2 h
  by_cases hm : r.method = "HEAD" <;>
    simp [mux, hp, HandleRequest, hf, Fprintln, StatusOK, Sprintln_allReady,
      ResponseWriter.Write, ResponseWriter.WriteHeader, ResponseWriter.fresh, hm,
      bodyAllowedForStatus, sniffContentType, Header.Get, sniff_allReady]

/-- The writer after `HandleRequest` when the loop clears `success`. -/
theorem mux_all_down (g : Globals) (probes : Probes) (r : Request)
    (hp : r.path = "/all") (h : ¬ allHealthy g probes) :
    (mux g probes (ResponseWriter.fresh r) r).1 =
      { isHEAD := decide (r.method = "HEAD"),
        header := [("Content-Type", "text/plain; charset=utf-8"),
                   ("X-Content-Type-Options", "nosniff")],
        wroteHeader := true,
        status := 503,
        sentHeader := [("Content-Type", "text/plain; charset=utf-8"),
                       ("X-Content-Type-Options", "nosniff")],
        written := "All: Health check failed\n",
        body := if r.method = "HEAD" then "" else "All: Health check failed\n" } := by
  have hf : (probeLoop g.timeout probes 3 (g.Args.drop 3) true).1 = false := by
    cases hb : (probeLoop g.timeout probes 3 (g.Args.drop 3) true).1 with
    | false => rfl
    | true => exact absurd ((HandleRequest_flag g probes).1 hb) h
  by_cases hm : r.method = "HEAD" <;>
    simp [mux, hp, HandleRequest, hf, Error, Fprintln, StatusServiceUnavailable,
      Sprintln_failed, ResponseWriter.Write, ResponseWriter.WriteHeader,
      ResponseWriter.SetHeader, ResponseWriter.fresh, hm, bodyAllowedForStatus,
      sniffContentType, Header.Get, Header.Set]

/-- The writer and the trace after the handler of `/self`. -/
theorem mux_self (g : Globals) (probes : Probes) (r : Request) (hp : r.path = "/self") :
    mux g probes (ResponseWriter.fresh r) r =
      ({ isHEAD := decide (r.method = "HEAD"),
         header := [("Content-Type", "text/plain")],
         wroteHeader := true,
         status := 200,
         sentHeader := [("Content-Type", "text/plain")],
         written := "Self: Ready 200\n",
         body := if r.method = "HEAD" then "" else "Self: Ready 200\n" }, []) := by
  by_cases hm : r.method = "HEAD" <;>
    simp [mux, hp, selfHandler, Fprintln, StatusOK, Sprintln_selfReady,
      ResponseWriter.Write, ResponseWriter.WriteHeader, ResponseWriter.SetHeader,
      ResponseWriter.fresh, hm, bodyAllowedForStatus, sniffContentType, Header.Get,
      Header.Set]

/-- The writer and the trace after the handler of `/`. -/
theorem mux_default (g : Globals) (probes : Probes) (r : Request)
    (h1 : r.path ≠ "/all") (h2 : r.path ≠ "/self") :
    mux g probes (ResponseWriter.fresh r) r =
      ({ isHEAD := decide (r.method = "HEAD"),
         header := [("Content-Type", "text/plain")],
         wroteHeader := true,
         status := 200,
         sentHeader := [("Content-Type", "text/plain")],
         written := "Not Found 404\n",
         body := if r.method = "HEAD" then "" else "Not Found 404\n" }, []) := by
  by_cases hm : r.method = "HEAD" <;>
    simp [mux, h1, h2, defaultHandler, Fprintln, StatusOK, StatusNotFound, Sprintln_notFound,
      ResponseWriter.Write, ResponseWriter.WriteHeader, ResponseWriter.SetHeader,
      ResponseWriter.fresh, hm, bodyAllowedForStatus, sniffContentType, Header.Get,
      Header.Set]

/-- The response of `/all` when the loop leaves `success` set. -/
theorem serve_all_up (g : Globals) (probes : Probes) (r : Request)
    (hp : r.path = "/all") (h : allHealthy g probes) :
    (serve g probes r).2.1 =
      { status := 200,
        header :=
          if r.method = "HEAD" then [] else [("Content-Type", "text/plain; charset=utf-8")],
        body := if r.method = "HEAD" then "" else "All: Ready 200\n" } := by
  simp [serve, mux_all_up g probes r hp h, finishRequest]

/-- The response of `/all` when the loop clears `success`. -/
theorem serve_all_down (g : Globals) (probes : Probes) (r : Request)
    (hp : r.path = "/all") (h : ¬ allHealthy g probes) :
    (serve g probes r).2.1 =
      { status := 503,
        header := [("Content-Type", "text/plain; charset=utf-8"),
                   ("X-Content-Type-Options", "nosniff")],
        body := if r.method = "HEAD" then "" else "All: Health check failed\n" } := by
  simp [serve, mux_all_down g probes r hp h, finishRequest]

theorem serve_self (g : Globals) (probes : Probes) (r : Request) (hp : r.path = "/self") :
    (serve g probes r).2 =
      ({ status := 200, header := [("Content-Type", "text/plain")],
         body := if r.method = "HEAD" then "" else "Self: Ready 200\n" }, []) := by
  simp [serve, mux_self g probes r hp, finishRequest]

theorem serve_default (g : Globals) (probes : Probes) (r : Request)
    (h1 : r.path ≠ "/all") (h2 : r.path ≠ "/self") :
    (serve g probes r).2 =
      ({ status := 200, header := [("Content-Type", "text/plain")],
         body := if r.method = "HEAD" then "" else "Not Found 404\n" }, []) := by
  simp [serve, mux_default g probes r h1 h2, finishRequest]

theorem serve_all_urls (g : Globals) (probes : Probes) (r : Request) (hp : r.path = "/all") :
    probedUrls (serve g probes r).2.2 = g.Args.drop 3 := by
  simp only [serve, mux, hp, if_true, HandleRequest]
  split <;> simp [probedUrls_append, probeLoop_urls, probedUrls]

theorem allHealthy_bothUp : allHealthy twoTargets bothUp := by
  intro i _ _
  simp [bothUp, healthy]

theorem not_allHealthy_secondDown : ¬ allHealthy twoTargets secondDown := by
  intro h
  have := h 4 (by decide) (by decide)
  simp [secondDown, healthy] at this

theorem healthy_iff (r : GetResult) :
    healthy r ↔ ∃ s : Int, r = .resp s ∧ 200 ≤ s ∧ s < 400 := by
  cases r with
  | err msg => simp [healthy]
  | resp code => simp [healthy]

theorem serve_fst (g : Globals) (probes : Probes) (r : Request) :
    (serve g probes r).1 = g := rfl

/-- The handlers read nothing of the request: the mux only looks at the path. -/
theorem mux_path_only (g : Globals) (probes : Probes) (w : ResponseWriter)
    (r1 r2 : Request) (hp : r1.path = r2.path) :
    mux g probes w r1 = mux g probes w r2 := by
  simp [mux, hp, HandleRequest, selfHandler, defaultHandler]

theorem serveAll_append (history : List (Request × Probes)) :
    ∀ (g : Globals) (r : Request) (probes : Probes),
      serveAll g (history ++ [(r, probes)]) = serveAll g history ++ [(serve g probes r).2.1] := by
  induction history with
  | nil => intro g r probes; simp [serveAll]
  | cons rp history ih =>
      intro g r probes
      obtain ⟨r0, p0⟩ := rp
      simp [serveAll, serve_fst, ih]

/-- The status code of a response depends on the path, the configuration and
the outcomes only. -/
theorem serve_status_path_only (g : Globals) (probes : Probes) (r1 r2 : Request)
    (hp : r1.path = r2.path) :
    (serve g probes r1).2.1.status = (serve g probes r2).2.1.status := by
  by_cases ha : r1.path = "/all"
  · by_cases h : allHealthy g probes
    · rw [serve_all_up g probes r1 ha h, serve_all_up g probes r2 (hp ▸ ha) h]
    · rw [serve_all_down g probes r1 ha h, serve_all_down g probes r2 (hp ▸ ha) h]
  · by_cases hs : r1.path = "/self"
    · rw [serve_self g probes r1 hs, serve_self g probes r2 (hp ▸ hs)]
    · rw [serve_default g probes r1 ha hs, serve_default g probes r2 (hp ▸ ha) (hp ▸ hs)]

/-- The body a `HEAD` request receives is empty. -/
theorem serve_head_body (g : Globals) (probes : Probes) (r : Request)
    (hm : r.method = "HEAD") : (serve g probes r).2.1.body = "" := by
  by_cases ha : r.path = "/all"
  · by_cases h : allHealthy g probes
    · rw [serve_all_up g probes r ha h]; simp [hm]
    · rw [serve_all_down g probes r ha h]; simp [hm]
  · by_cases hs : r.path = "/self"
    · rw [serve_self g probes r hs]; simp [hm]
    · rw [serve_default g probes r ha hs]; simp [hm]

/-- Two requests with the same path that are both `HEAD` requests or both not
receive the same response. -/
theorem serve_path_head_only (g : Globals) (probes : Probes) (r1 r2 : Request)
    (hp : r1.path = r2.path) (hm : r1.method = "HEAD" ↔ r2.method = "HEAD") :
    (serve g probes r1).2.1 = (serve g probes r2).2.1 := by
  have hfresh : ResponseWriter.fresh r1 = ResponseWriter.fresh r2 := by
    simp [ResponseWriter.fresh, hm]
  simp only [serve, hfresh, mux_path_only g probes (ResponseWriter.fresh r2) r1 r2 hp]

/-! ## The `/all` route -/

/-- C1: for every list of targets and every assignment of probe outcomes, the
response to `/all` has status 200 exactly when every target's probe returned a
response (no transport error) with a status code `s`, `200 ≤ s < 400`, and has
status 503 in every other case; the flag `success` is the conjunction of the
per-target outcomes.  (Holds for the empty target list as well.) -/
theorem all_status_is_conjunction (g : Globals) (probes : Probes) (r : Request)
    (hp : r.path = "/all") :
    ((serve g probes r).2.1.status = 200 ↔
        ∀ i, 3 ≤ i → i < g.Args.length → ∃ s : Int, probes i = .resp s ∧ 200 ≤ s ∧ s < 400) ∧
    ((¬ ∀ i, 3 ≤ i → i < g.Args.length → ∃ s : Int, probes i = .resp s ∧ 200 ≤ s ∧ s < 400) →
        (serve g probes r).2.1.status = 503) ∧
    (probeLoop g.timeout probes 3 (g.Args.drop 3) true).1 =
        (List.range (g.Args.length - 3)).all (fun k => decide (healthy (probes (3 + k)))) := by
  have hiff : (∀ i, 3 ≤ i → i < g.Args.length →
      ∃ s : Int, probes i = .resp s ∧ 200 ≤ s ∧ s < 400) ↔ allHealthy g probes := by
    simp only [allHealthy, healthy_iff]
  rw [hiff]
  refine ⟨?_, ?_, ?_⟩
  · by_cases h : allHealthy g probes
    · simp [serve_all_up g probes r hp h, h]
    · simp [serve_all_down g probes r hp h, h]
  · intro h
    simp [serve_all_down g probes r hp h]
  · rw [Bool.eq_iff_iff, HandleRequest_flag, List.all_eq_true]
    simp only [List.mem_range, decide_eq_true_eq]
    constructor
    · intro h k hk
      exact h (3 + k) (by omega) (by omega)
    · intro h i h3 hlt
      have := h (i - 3) (by omega)
      have e : 3 + (i - 3) = i := by omega
      rw [e] at this
      exact this

/-- Instance of C1: two targets, both answering 200. -/
theorem all_status_is_conjunction_witness :
    (getRequest "/all").path = "/all" ∧
    (((serve twoTargets bothUp (getRequest "/all")).2.1.status = 200 ↔
        ∀ i, 3 ≤ i → i < twoTargets.Args.length →
          ∃ s : Int, bothUp i = .resp s ∧ 200 ≤ s ∧ s < 400) ∧
    ((¬ ∀ i, 3 ≤ i → i < twoTargets.Args.length →
          ∃ s : Int, bothUp i = .resp s ∧ 200 ≤ s ∧ s < 400) →
        (serve twoTargets bothUp (getRequest "/all")).2.1.status = 503) ∧
    (probeLoop twoTargets.timeout bothUp 3 (twoTargets.Args.drop 3) true).1 =
        (List.range (twoTargets.Args.length - 3)).all
          (fun k => decide (healthy (bothUp (3 + k))))) :=
  ⟨rfl, all_status_is_conjunction twoTargets bothUp (getRequest "/all") rfl⟩

/-- C7: a received response with status code `s` counts as a success exactly
when `200 ≤ s < 400` (so 200, 301 and 399 succeed, 199, 400, 404 and 500 fail)
and a transport error always counts as a failure; a success leaves the flag as
it was, a failure clears it. -/
theorem classify_status_range (url : String) :
    (∀ (s : Int) (b : Bool),
        (classify url (.resp s) b).1 = (b && decide (200 ≤ s ∧ s < 400))) ∧
    (∀ s : Int, (classify url (.resp s) true).1 = true ↔ 200 ≤ s ∧ s < 400) ∧
    (classify url (.resp 200) true).1 = true ∧
    (classify url (.resp 301) true).1 = true ∧
    (classify url (.resp 399) true).1 = true ∧
    (classify url (.resp 199) true).1 = false ∧
    (classify url (.resp 400) true).1 = false ∧
    (classify url (.resp 404) true).1 = false ∧
    (classify url (.resp 500) true).1 = false ∧
    (∀ (msg : String) (b : Bool), (classify url (.err msg) b).1 = false) := by
  refine ⟨?_, ?_, ?_, ?_, ?_, ?_, ?_, ?_, ?_, ?_⟩
  · intro s b; simp [classify_fst, healthy]
  · intro s; simp [classify_fst, healthy]
  all_goals simp [classify_fst, healthy]

/-- C8: one `/all` request issues one GET per configured target, in the order
of `os.Args[3], os.Args[4], ...`, whatever the outcomes: the sequence of probed
URLs is the configured target list. -/
theorem all_probes_every_target (g : Globals) (probes : Probes) (r : Request)
    (hp : r.path = "/all") :
    probedUrls (serve g probes r).2.2 = g.Args.drop 3 ∧
    (probedUrls (serve g probes r).2.2).length = g.Args.length - 3 ∧
    ∀ k, (probedUrls (serve g probes r).2.2)[k]? = g.Args[3 + k]? := by
  rw [serve_all_urls g probes r hp]
  refine ⟨rfl, by simp, ?_⟩
  intro k
  simp [List.getElem?_drop]

/-- Instance of C8: the second of two targets fails, both are probed. -/
theorem all_probes_every_target_witness :
    (getRequest "/all").path = "/all" ∧
    (probedUrls (serve twoTargets secondDown (getRequest "/all")).2.2
        = twoTargets.Args.drop 3 ∧
    (probedUrls (serve twoTargets secondDown (getRequest "/all")).2.2).length
        = twoTargets.Args.length - 3 ∧
    ∀ k, (probedUrls (serve twoTargets secondDown (getRequest "/all")).2.2)[k]?
        = twoTargets.Args[3 + k]?) :=
  ⟨rfl, all_probes_every_target twoTargets secondDown (getRequest "/all") rfl⟩

/-! ## The `/self` route -/

/-- C3: whatever the configuration and the state of the targets, a request to
`/self` is answered with status 200 and the handler issues no outbound GET. -/
theorem self_ready_without_probes (g : Globals) (probes : Probes) (r : Request)
    (hp : r.path = "/self") :
    (serve g probes r).2.1.status = 200 ∧ probedUrls (serve g probes r).2.2 = [] := by
  rw [serve_self g probes r hp]
  exact ⟨rfl, rfl⟩

/-- Instance of C3: `/self` while a target is down. -/
theorem self_ready_without_probes_witness :
    (getRequest "/self").path = "/self" ∧
    ((serve twoTargets secondDown (getRequest "/self")).2.1.status = 200 ∧
      probedUrls (serve twoTargets secondDown (getRequest "/self")).2.2 = []) :=
  ⟨rfl, self_ready_without_probes twoTargets secondDown (getRequest "/self") rfl⟩

/-! ## What the response depends on -/

/-- C9 as stated fails: a `GET` and a `HEAD` request for `/all`, served under
the same configuration and the same outcomes, receive the same status but not
the same body: the server sends no body in answer to `HEAD`. -/
theorem head_body_counterexample :
    (getRequest "/all").path = (headRequest "/all").path ∧
    (serve twoTargets bothUp (getRequest "/all")).2.1.status = 200 ∧
    (serve twoTargets bothUp (headRequest "/all")).2.1.status = 200 ∧
    (serve twoTargets bothUp (getRequest "/all")).2.1.body = "All: Ready 200\n" ∧
    (serve twoTargets bothUp (headRequest "/all")).2.1.body = "" ∧
    (serve twoTargets bothUp (getRequest "/all")).2.1.body
      ≠ (serve twoTargets bothUp (headRequest "/all")).2.1.body := by
  rw [serve_all_up twoTargets bothUp (getRequest "/all") rfl allHealthy_bothUp,
    serve_all_up twoTargets bothUp (headRequest "/all") rfl allHealthy_bothUp]
  decide

/-- C9, amended: the response to a request depends on its path, on whether its
method is `HEAD`, on the configuration and on the outcomes only.  Two requests
with the same path, served under the same configuration and the same outcomes
after any requests whatever, receive the same status; they receive the same
body as well when both or neither is a `HEAD` request, whatever their methods
otherwise, their headers and their query; a `HEAD` request receives an empty
body.  Serving a request leaves the package state as it was. -/
theorem response_function_of_path_and_head (g : Globals) (probes : Probes)
    (before1 before2 : List (Request × Probes)) (r1 r2 : Request)
    (hp : r1.path = r2.path) :
    ((serveAll g (before1 ++ [(r1, probes)])).getLast?.map (fun resp => resp.status) =
      (serveAll g (before2 ++ [(r2, probes)])).getLast?.map (fun resp => resp.status)) ∧
    ((r1.method = "HEAD" ↔ r2.method = "HEAD") →
      (serveAll g (before1 ++ [(r1, probes)])).getLast? =
        (serveAll g (before2 ++ [(r2, probes)])).getLast?) ∧
    (r1.method = "HEAD" →
      (serveAll g (before1 ++ [(r1, probes)])).getLast?.map (fun resp => resp.body)
        = some "") ∧
    (serveAll g (before1 ++ [(r1, probes)])).getLast? = some (serve g probes r1).2.1 ∧
    (serve g probes r1).1 = g := by
  have hlast : ∀ (before : List (Request × Probes)) (r : Request),
      (serveAll g (before ++ [(r, probes)])).getLast? = some (serve g probes r).2.1 := by
    intro before r
    rw [serveAll_append]
    simp
  rw [hlast before1 r1, hlast before2 r2]
  refine ⟨?_, ?_, ?_, rfl, rfl⟩
  · simp only [Option.map_some']
    rw [serve_status_path_only g probes r1 r2 hp]
  · intro hm
    rw [serve_path_head_only g probes r1 r2 hp hm]
  · intro hm
    simp only [Option.map_some']
    rw [serve_head_body g probes r1 hm]

/-- Instance of C9 (amended): a bare `GET /all` as first request against a
`POST /all?verbose=1` served after two other requests. -/
theorem response_function_of_path_and_head_witness :
    (getRequest "/all").path = postAll.path ∧
    ((getRequest "/all").method = "HEAD" ↔ postAll.method = "HEAD") ∧
    (serveAll twoTargets ([] ++ [(getRequest "/all", secondDown)])).getLast? =
      (serveAll twoTargets
        ([(getRequest "/all", bothUp), (headRequest "/self", bothUp)]
          ++ [(postAll, secondDown)])).getLast? :=
  ⟨rfl, by decide,
    (response_function_of_path_and_head twoTargets secondDown []
      [(getRequest "/all", bothUp), (headRequest "/self", bothUp)]
      (getRequest "/all") postAll rfl).2.1 (by decide)⟩

/-! ## The default route -/

/-- C2, as the code has it: a request whose path is neither `/all` nor `/self`
reaches the handler of `/`, which prints `Not Found 404` into the body without
calling `WriteHeader`; the status code of the response is 200, not 404. -/
theorem default_route_status (g : Globals) (probes : Probes) (r : Request)
    (h1 : r.path ≠ "/all") (h2 : r.path ≠ "/self") :
    (serve g probes r).2.1.status = 200 ∧
    (serve g probes r).2.1.status ≠ 404 ∧
    routeWrites g probes r = "Not Found 404\n" ∧
    (serve g probes r).2.1.body = if r.method = "HEAD" then "" else "Not Found 404\n" := by
  rw [serve_default g probes r h1 h2, routeWrites, mux_default g probes r h1 h2]
  exact ⟨rfl, by simp, rfl, rfl⟩

/-- Instance of C2 at the path `/health`. -/
theorem default_route_status_witness :
    (getRequest "/health").path ≠ "/all" ∧ (getRequest "/health").path ≠ "/self" ∧
    ((serve twoTargets bothUp (getRequest "/health")).2.1.status = 200 ∧
     (serve twoTargets bothUp (getRequest "/health")).2.1.status ≠ 404 ∧
     routeWrites twoTargets bothUp (getRequest "/health") = "Not Found 404\n" ∧
     (serve twoTargets bothUp (getRequest "/health")).2.1.body
       = if (getRequest "/health").method = "HEAD" then "" else "Not Found 404\n") :=
  ⟨by decide, by decide,
    default_route_status twoTargets bothUp (getRequest "/health") (by decide) (by decide)⟩

/-! ## Response bodies -/

/-- C4 as stated fails: every body ends in the newline that `fmt.Fprintln`
appends, so none of the four bodies is the bare documented string. -/
theorem body_exact_counterexample :
    (serve twoTargets bothUp (getRequest "/all")).2.1.body = "All: Ready 200\n" ∧
    (serve twoTargets bothUp (getRequest "/all")).2.1.body ≠ "All: Ready 200" ∧
    (serve twoTargets secondDown (getRequest "/all")).2.1.body ≠ "All: Health check failed" ∧
    (serve twoTargets bothUp (getRequest "/self")).2.1.body ≠ "Self: Ready 200" ∧
    (serve twoTargets bothUp (getRequest "/health")).2.1.body ≠ "Not Found 404" := by
  rw [serve_all_up twoTargets bothUp (getRequest "/all") rfl allHealthy_bothUp,
    serve_all_down twoTargets secondDown (getRequest "/all") rfl not_allHealthy_secondDown,
    serve_self twoTargets bothUp (getRequest "/self") rfl,
    serve_default twoTargets bothUp (getRequest "/health") (by decide) (by decide)]
  decide

/-- C4, amended: the body each route writes is the documented string followed
by one newline: `/all` writes `All: Ready 200\n` when every target is healthy
and `All: Health check failed\n` otherwise, `/self` writes `Self: Ready 200\n`,
and every other path writes `Not Found 404\n`; these bytes are the body the
client receives, unless the request is a `HEAD` request, whose response has no
body. -/
theorem body_is_documented_line (g : Globals) (probes : Probes) (r : Request) :
    (r.path = "/all" → allHealthy g probes →
        routeWrites g probes r = "All: Ready 200" ++ "\n" ∧
        (serve g probes r).2.1.body
          = if r.method = "HEAD" then "" else "All: Ready 200" ++ "\n") ∧
    (r.path = "/all" → ¬ allHealthy g probes →
        routeWrites g probes r = "All: Health check failed" ++ "\n" ∧
        (serve g probes r).2.1.body
          = if r.method = "HEAD" then "" else "All: Health check failed" ++ "\n") ∧
    (r.path = "/self" →
        routeWrites g probes r = "Self: Ready 200" ++ "\n" ∧
        (serve g probes r).2.1.body
          = if r.method = "HEAD" then "" else "Self: Ready 200" ++ "\n") ∧
    (r.path ≠ "/all" → r.path ≠ "/self" →
        routeWrites g probes r = "Not Found 404" ++ "\n" ∧
        (serve g probes r).2.1.body
          = if r.method = "HEAD" then "" else "Not Found 404" ++ "\n") := by
  refine ⟨?_, ?_, ?_, ?_⟩
  · intro hp h
    rw [serve_all_up g probes r hp h, routeWrites, mux_all_up g probes r hp h]
    exact ⟨rfl, rfl⟩
  · intro hp h
    rw [serve_all_down g probes r hp h, routeWrites, mux_all_down g probes r hp h]
    exact ⟨rfl, rfl⟩
  · intro hp
    rw [serve_self g probes r hp, routeWrites, mux_self g probes r hp]
    exact ⟨rfl, rfl⟩
  · intro h1 h2
    rw [serve_default g probes r h1 h2, routeWrites, mux_default g probes r h1 h2]
    exact ⟨rfl, rfl⟩

/-- Instance of C4 (amended) on each of the four cases. -/
theorem body_is_documented_line_witness :
    (routeWrites twoTargets bothUp (getRequest "/all") = "All: Ready 200" ++ "\n" ∧
      (serve twoTargets bothUp (getRequest "/all")).2.1.body
        = if (getRequest "/all").method = "HEAD" then "" else "All: Ready 200" ++ "\n") ∧
    (routeWrites twoTargets secondDown (getRequest "/all")
        = "All: Health check failed" ++ "\n" ∧
      (serve twoTargets secondDown (getRequest "/all")).2.1.body
        = if (getRequest "/all").method = "HEAD" then ""
          else "All: Health check failed" ++ "\n") ∧
    (routeWrites twoTargets bothUp (headRequest "/self") = "Self: Ready 200" ++ "\n" ∧
      (serve twoTargets bothUp (headRequest "/self")).2.1.body
        = if (headRequest "/self").method = "HEAD" then "" else "Self: Ready 200" ++ "\n") ∧
    (routeWrites twoTargets bothUp (getRequest "/") = "Not Found 404" ++ "\n" ∧
      (serve twoTargets bothUp (getRequest "/")).2.1.body
        = if (getRequest "/").method = "HEAD" then "" else "Not Found 404" ++ "\n") :=
  ⟨(body_is_documented_line twoTargets bothUp (getRequest "/all")).1 rfl allHealthy_bothUp,
   (body_is_documented_line twoTargets secondDown (getRequest "/all")).2.1 rfl
      not_allHealthy_secondDown,
   (body_is_documented_line twoTargets bothUp (headRequest "/self")).2.2.1 rfl,
   (body_is_documented_line twoTargets bothUp (getRequest "/")).2.2.2
      (by decide) (by decide)⟩

/-! ## Content type -/

/-- C5 as stated fails: on the success path of `/all` the handler sets no
header at all before it writes the body (its header map is empty when it
returns), and the response to a `HEAD` request on that path carries no
`Content-Type`. -/
theorem content_type_counterexample :
    allHealthy twoTargets bothUp ∧
    handlerHeader twoTargets bothUp (getRequest "/all") = [] ∧
    (handlerHeader twoTargets bothUp (getRequest "/all")).Get "Content-Type" = none ∧
    (serve twoTargets bothUp (headRequest "/all")).2.1.header.Get "Content-Type" = none := by
  refine ⟨allHealthy_bothUp, ?_, ?_, ?_⟩
  · rw [handlerHeader, mux_all_up twoTargets bothUp (getRequest "/all") rfl allHealthy_bothUp]
  · rw [handlerHeader, mux_all_up twoTargets bothUp (getRequest "/all") rfl allHealthy_bothUp]
    rfl
  · rw [serve_all_up twoTargets bothUp (headRequest "/all") rfl allHealthy_bothUp]
    decide

/-- C5, amended: on `/self`, on every path other than `/all` and `/self`, and
on `/all` when a probe fails, the handler sets the `Content-Type` to plain text
before the body is written (`text/plain` on the first two, and
`text/plain; charset=utf-8` through `http.Error` on the third), and the
response carries it.  On `/all` when every target is healthy the handler sets
no header; the response then carries `text/plain; charset=utf-8`, added by the
server from the bytes written, unless the request is a `HEAD` request, in which
case it carries no `Content-Type`. -/
theorem content_type_by_route (g : Globals) (probes : Probes) (r : Request) :
    (r.path = "/self" →
        (handlerHeader g probes r).Get "Content-Type" = some "text/plain" ∧
        (serve g probes r).2.1.header.Get "Content-Type" = some "text/plain") ∧
    (r.path ≠ "/all" → r.path ≠ "/self" →
        (handlerHeader g probes r).Get "Content-Type" = some "text/plain" ∧
        (serve g probes r).2.1.header.Get "Content-Type" = some "text/plain") ∧
    (r.path = "/all" → ¬ allHealthy g probes →
        (handlerHeader g probes r).Get "Content-Type" = some "text/plain; charset=utf-8" ∧
        (serve g probes r).2.1.header.Get "Content-Type"
          = some "text/plain; charset=utf-8") ∧
    (r.path = "/all" → allHealthy g probes →
        handlerHeader g probes r = [] ∧
        (serve g probes r).2.1.header.Get "Content-Type"
          = if r.method = "HEAD" then none else some "text/plain; charset=utf-8") := by
  refine ⟨?_, ?_, ?_, ?_⟩
  · intro hp
    rw [serve_self g probes r hp, handlerHeader, mux_self g probes r hp]
    exact ⟨by simp [Header.Get], by simp [Header.Get]⟩
  · intro h1 h2
    rw [serve_default g probes r h1 h2, handlerHeader, mux_default g probes r h1 h2]
    exact ⟨by simp [Header.Get], by simp [Header.Get]⟩
  · intro hp h
    rw [serve_all_down g probes r hp h, handlerHeader, mux_all_down g probes r hp h]
    exact ⟨by simp [Header.Get], by simp [Header.Get]⟩
  · intro hp h
    rw [serve_all_up g probes r hp h, handlerHeader, mux_all_up g probes r hp h]
    refine ⟨rfl, ?_⟩
    by_cases hm : r.method = "HEAD"
    · simp only [hm, if_true]; decide
    · simp only [hm, if_false]; decide

/-- Instance of C5 (amended) on each of the four cases, the last one with a
`GET` request. -/
theorem content_type_by_route_witness :
    ((handlerHeader twoTargets bothUp (getRequest "/self")).Get "Content-Type"
        = some "text/plain" ∧
      (serve twoTargets bothUp (getRequest "/self")).2.1.header.Get "Content-Type"
        = some "text/plain") ∧
    ((handlerHeader twoTargets bothUp (getRequest "/health")).Get "Content-Type"
        = some "text/plain" ∧
      (serve twoTargets bothUp (getRequest "/health")).2.1.header.Get "Content-Type"
        = some "text/plain") ∧
    ((handlerHeader twoTargets secondDown (getRequest "/all")).Get "Content-Type"
        = some "text/plain; charset=utf-8" ∧
      (serve twoTargets secondDown (getRequest "/all")).2.1.header.Get "Content-Type"
        = some "text/plain; charset=utf-8") ∧
    (handlerHeader twoTargets bothUp (getRequest "/all") = [] ∧
      (serve twoTargets bothUp (getRequest "/all")).2.1.header.Get "Content-Type"
        = if (getRequest "/all").method = "HEAD" then none
          else some "text/plain; charset=utf-8") :=
  ⟨(content_type_by_route twoTargets bothUp (getRequest "/self")).1 rfl,
   (content_type_by_route twoTargets bothUp (getRequest "/health")).2.1
      (by decide) (by decide),
   (content_type_by_route twoTargets secondDown (getRequest "/all")).2.2.1 rfl
      not_allHealthy_secondDown,
   (content_type_by_route twoTargets bothUp (getRequest "/all")).2.2.2 rfl
      allHealthy_bothUp⟩

/-! ## Start-up -/

/-- C6: `main` stops with exit code 1 before anything is parsed and before
`ListenAndServe` is called exactly when `len(os.Args) < 4`; with four or more
entries it parses the port and calls `ListenAndServe` on `0.0.0.0:<port>`. -/
theorem main_fatal_iff_too_few_args (listenErr : String → Option String)
    (Args : List String) :
    (Args.length < 4 ↔
      ((main listenErr Args).exit = some 1 ∧ (main listenErr Args).port = none ∧
        ∀ addr, Effect.listen addr ∉ (main listenErr Args).effects)) ∧
    (Args.length < 4 → main listenErr Args = tooFewArgs Args) ∧
    (4 ≤ Args.length → ∃ port : Int,
      (main listenErr Args).port = some port ∧
      Effect.listen ("0.0.0.0:" ++ toString port) ∈ (main listenErr Args).effects) := by
  by_cases h : Args.length < 4
  · simp [main, h, tooFewArgs]
  · have h4 : 4 ≤ Args.length := by omega
    refine ⟨?_, fun h' => absurd h' h, fun _ => ?_⟩
    · simp only [h, false_iff]
      rintro ⟨_, hport, _⟩
      revert hport
      simp only [main, h, if_false]
      split <;> simp
    · refine ⟨(Atoi (bytes (Args.getD 1 ""))).1, ?_, ?_⟩
      · simp only [main, h, if_false]
        split <;> rfl
      · simp only [main, h, if_false]
        split <;> simp

/-- Instance of C6 on an argument vector with one target and on one without. -/
theorem main_fatal_iff_too_few_args_witness :
    main (fun _ => none) ["healthcheck", "8080", "5"]
      = tooFewArgs ["healthcheck", "8080", "5"] ∧
    ∃ port : Int,
      (main (fun _ => none) ["healthcheck", "8080", "5", "http://a.test"]).port = some port ∧
      Effect.listen ("0.0.0.0:" ++ toString port)
        ∈ (main (fun _ => none) ["healthcheck", "8080", "5", "http://a.test"]).effects :=
  ⟨(main_fatal_iff_too_few_args (fun _ => none) ["healthcheck", "8080", "5"]).2.1
      (by decide),
   (main_fatal_iff_too_few_args (fun _ => none)
      ["healthcheck", "8080", "5", "http://a.test"]).2.2 (by decide)⟩

/-! ## `Atoi` on strings it rejects -/

theorem le_decVal (cs : List Nat) : ∀ n, n ≤ decVal cs n := by
  induction cs with
  | nil => intro n; simp [decVal]
  | cons c cs ih =>
      intro n
      have := ih (n * 10 + (c - 48))
      simp only [decVal]
      omega

theorem decVal_lt (cs : List Nat) (hd : ∀ d ∈ cs, 48 ≤ d ∧ d ≤ 57) :
    ∀ n, decVal cs n < (n + 1) * 10 ^ cs.length := by
  induction cs with
  | nil => intro n; simp [decVal]
  | cons c cs ih =>
      intro n
      have hc := hd c (List.mem_cons_self c cs)
      have h1 := ih (fun d hm => hd d (List.mem_cons_of_mem c hm)) (n * 10 + (c - 48))
      have h2 : (n * 10 + (c - 48) + 1) * 10 ^ cs.length ≤ ((n + 1) * 10) * 10 ^ cs.length :=
        Nat.mul_le_mul_right _ (by omega)
      simp only [decVal, List.length_cons, pow_succ]
      calc decVal cs (n * 10 + (c - 48))
          < (n * 10 + (c - 48) + 1) * 10 ^ cs.length := h1
        _ ≤ ((n + 1) * 10) * 10 ^ cs.length := h2
        _ = (n + 1) * (10 ^ cs.length * 10) := by ring

/-- On a string of digits the loop of `ParseUint` returns the number denoted
when it fits 64 bits and `(maxUint64, ErrRange)` when it does not. -/
theorem parseUintLoop_digits (cs : List Nat) (hd : ∀ d ∈ cs, 48 ≤ d ∧ d ≤ 57) :
    ∀ n, n < 2 ^ 64 →
      parseUintLoop cs n =
        if decVal cs n < 2 ^ 64 then (decVal cs n, none) else (maxUint64, some .ErrRange) := by
  induction cs with
  | nil => intro n hn; rw [parseUintLoop, decVal, if_pos hn]
  | cons c cs ih =>
      intro n hn
      have hc := hd c (List.mem_cons_self c cs)
      have ih1 := ih (fun d hm => hd d (List.mem_cons_of_mem c hm))
      have hmono := le_decVal cs (n * 10 + (c - 48))
      have hmax : maxUint64 = 2 ^ 64 - 1 := rfl
      rw [parseUintLoop, decVal, if_pos hc]
      dsimp only
      by_cases hcut : n ≥ maxUint64 / 10 + 1
      · have hbig : ¬ decVal cs (n * 10 + (c - 48)) < 2 ^ 64 := by
          rw [hmax] at hcut; omega
        rw [if_pos hcut, if_neg hbig]
      · have hn10 : n * 10 % 2 ^ 64 = n * 10 :=
          Nat.mod_eq_of_lt (by rw [hmax] at hcut; omega)
        rw [if_neg hcut, hn10]
        by_cases hov : n * 10 + (c - 48) < 2 ^ 64
        · have hmod : (n * 10 + (c - 48)) % 2 ^ 64 = n * 10 + (c - 48) :=
            Nat.mod_eq_of_lt hov
          have hno : ¬ (n * 10 + (c - 48) < n * 10 ∨ n * 10 + (c - 48) > maxUint64) := by
            rw [hmax]; omega
          rw [hmod, if_neg hno, ih1 _ hov]
        · have hmod : (n * 10 + (c - 48)) % 2 ^ 64 = n * 10 + (c - 48) - 2 ^ 64 := by
            omega
          have hyes : n * 10 + (c - 48) - 2 ^ 64 < n * 10 ∨
              n * 10 + (c - 48) - 2 ^ 64 > maxUint64 := by
            rw [hmax]; omega
          have hbig : ¬ decVal cs (n * 10 + (c - 48)) < 2 ^ 64 := by omega
          rw [hmod, if_pos hyes, if_neg hbig]

theorem ParseUint_digits (ds : List Nat) (hne : ds ≠ []) (hd : ∀ d ∈ ds, 48 ≤ d ∧ d ≤ 57) :
    ParseUint ds =
      if decVal ds 0 < 2 ^ 64 then (decVal ds 0, none) else (maxUint64, some .ErrRange) := by
  simp only [ParseUint, hne, if_false]
  exact parseUintLoop_digits ds hd 0 (by norm_num)

/-- Whatever `ParseInt` rejects: 0 with a syntax error, the bound of `int` on
the side of the sign with a range error. -/
theorem ParseInt_error_value (s : List Nat) :
    ((ParseInt s).2 = some .ErrSyntax → (ParseInt s).1 = 0) ∧
    ((ParseInt s).2 = some .ErrRange → (ParseInt s).1 = boundOnSide s) := by
  cases s with
  | nil => simp [ParseInt]
  | cons c cs =>
      by_cases hc : c = 45
      · simp only [ParseInt, boundOnSide, List.head?_cons, hc]
        split_ifs <;> simp_all [minInt]
      · have hne : ¬ (some c = some 45) := by simpa using hc
        simp only [ParseInt, boundOnSide, List.head?_cons, hne, if_false]
        split_ifs <;> simp_all [maxInt]

/-- Whatever `Atoi` rejects: 0 with a syntax error, the bound of `int` on the
side of the sign with a range error. -/
theorem Atoi_error_value (s : List Nat) :
    ((Atoi s).2 = some .ErrSyntax → (Atoi s).1 = 0) ∧
    ((Atoi s).2 = some .ErrRange → (Atoi s).1 = boundOnSide s) := by
  unfold Atoi
  split_ifs with hlen
  · cases s with
    | nil => simp
    | cons c cs =>
        dsimp only
        generalize atoiFastLoop _ 0 = o
        cases o <;> split_ifs <;> simp
  · exact ParseInt_error_value s

theorem decVal_small (ds : List Nat) (hd : ∀ d ∈ ds, 48 ≤ d ∧ d ≤ 57)
    (hlen : ds.length < 19) : decVal ds 0 < 2 ^ 63 := by
  have h1 := decVal_lt ds hd 0
  have h2 : 10 ^ ds.length ≤ 10 ^ 18 := Nat.pow_le_pow_right (by norm_num) (by omega)
  have h3 : (10 : Nat) ^ 18 < 2 ^ 63 := by norm_num
  omega

/-- What `ParseUint` returns on a string of digits denoting at least `2^63`:
no syntax error, and a value of at least `2^63`. -/
theorem ParseUint_large (ds : List Nat) (hne : ds ≠ []) (hd : ∀ d ∈ ds, 48 ≤ d ∧ d ≤ 57)
    (bound : Nat) (hb : bound ≤ decVal ds 0) (hb64 : bound < 2 ^ 64) :
    (ParseUint ds).2 ≠ some .ErrSyntax ∧ bound ≤ (ParseUint ds).1 := by
  rw [ParseUint_digits ds hne hd]
  split_ifs with h
  · exact ⟨by simp, hb⟩
  · refine ⟨by simp, ?_⟩
    show bound ≤ maxUint64
    have hmax : maxUint64 = 2 ^ 64 - 1 := rfl
    omega

/-- A decimal literal denoting more than `maxInt`: `Atoi` returns
`(maxInt, ErrRange)`. -/
theorem Atoi_literal_above (ds : List Nat) (hne : ds ≠ []) (hd : ∀ d ∈ ds, 48 ≤ d ∧ d ≤ 57)
    (h : 2 ^ 63 ≤ decVal ds 0) : Atoi ds = (maxInt, some .ErrRange) := by
  have hlen : ¬ (0 < ds.length ∧ ds.length < 19) := by
    rintro ⟨_, hl⟩
    have := decVal_small ds hd hl
    omega
  obtain ⟨hsyn, hval⟩ := ParseUint_large ds hne hd (2 ^ 63) h (by norm_num)
  cases ds with
  | nil => exact absurd rfl hne
  | cons c cs =>
      have hc := hd c (List.mem_cons_self c cs)
      have h43 : c ≠ 43 := by omega
      have h45 : c ≠ 45 := by omega
      rw [Atoi, if_neg hlen]
      simp only [ParseInt, h43, h45, if_false, hsyn, decide_False, Bool.not_false, true_and]
      rw [if_pos hval]
      simp [maxInt]

theorem minInt_eq : (-((2 ^ 63 : Nat) : Int)) = minInt := by
  simp [minInt]

/-- A negative decimal literal denoting less than `minInt`: `Atoi` returns
`(minInt, ErrRange)`. -/
theorem Atoi_literal_below (ds : List Nat) (hne : ds ≠ []) (hd : ∀ d ∈ ds, 48 ≤ d ∧ d ≤ 57)
    (h : 2 ^ 63 < decVal ds 0) : Atoi (45 :: ds) = (minInt, some .ErrRange) := by
  have hlen : ¬ (0 < (45 :: ds).length ∧ (45 :: ds).length < 19) := by
    rintro ⟨_, hl⟩
    have := decVal_small ds hd (by simp only [List.length_cons] at hl; omega)
    omega
  obtain ⟨hsyn, hval⟩ := ParseUint_large ds hne hd (2 ^ 63 + 1) h (by norm_num)
  have hgt : (ParseUint ds).1 > 2 ^ 63 := by omega
  have e : (if (45 : Nat) = 43 then ds else if True then ds else 45 :: ds) = ds := by
    rw [if_neg (by decide), if_pos trivial]
  have hfirst : ¬ ((!decide True) = true ∧ (ParseUint ds).1 ≥ 2 ^ 63) := by simp
  have hsecond : decide True = true ∧ (ParseUint ds).1 > 2 ^ 63 := ⟨by simp, hgt⟩
  rw [Atoi, if_neg hlen]
  simp only [ParseInt]
  rw [e, if_neg hsyn, if_neg hfirst, if_pos hsecond, minInt_eq]

/-- A decimal literal with a `+` sign denoting more than `maxInt`: `Atoi`
returns `(maxInt, ErrRange)`. -/
theorem Atoi_literal_plus (ds : List Nat) (hne : ds ≠ []) (hd : ∀ d ∈ ds, 48 ≤ d ∧ d ≤ 57)
    (h : 2 ^ 63 ≤ decVal ds 0) : Atoi (43 :: ds) = (maxInt, some .ErrRange) := by
  have hlen : ¬ (0 < (43 :: ds).length ∧ (43 :: ds).length < 19) := by
    rintro ⟨_, hl⟩
    have := decVal_small ds hd (by simp only [List.length_cons] at hl; omega)
    omega
  obtain ⟨hsyn, hval⟩ := ParseUint_large ds hne hd (2 ^ 63) h (by norm_num)
  have e : (if True then ds else if (43 : Nat) = 45 then ds else 43 :: ds) = ds := by
    rw [if_pos trivial]
  have hfirst : (!decide ((43 : Nat) = 45)) = true ∧ (ParseUint ds).1 ≥ 2 ^ 63 :=
    ⟨by decide, hval⟩
  rw [Atoi, if_neg hlen]
  simp only [ParseInt]
  rw [e, if_neg hsyn, if_pos hfirst]
  simp [maxInt]

theorem bytes_hugeTimeout :
    bytes "9223372036854775808"
      = [57, 50, 50, 51, 51, 55, 50, 48, 51, 54, 56, 53, 52, 55, 55, 53, 56, 48, 56] := by
  decide

theorem bytes_tinyTimeout :
    bytes "-9223372036854775809"
      = 45 :: [57, 50, 50, 51, 51, 55, 50, 48, 51, 54, 56, 53, 52, 55, 55, 53, 56, 48, 57] := by
  decide

theorem bytes_plusTimeout :
    bytes "+9223372036854775808"
      = 43 :: [57, 50, 50, 51, 51, 55, 50, 48, 51, 54, 56, 53, 52, 55, 55, 53, 56, 48, 56] := by
  decide

theorem Atoi_hugeTimeout :
    Atoi (bytes "9223372036854775808") = (9223372036854775807, some .ErrRange) := by
  rw [bytes_hugeTimeout]
  decide

theorem Atoi_empty : Atoi (bytes "") = (0, some .ErrSyntax) := by decide

theorem Atoi_abc : Atoi (bytes "abc") = (0, some .ErrSyntax) := by decide

theorem bytes_overflowThenLetter :
    bytes "99999999999999999999x"
      = [57, 57, 57, 57, 57, 57, 57, 57, 57, 57, 57, 57, 57, 57, 57, 57, 57, 57, 57, 57, 120] := by
  decide

theorem Atoi_overflowThenLetter :
    (Atoi (bytes "99999999999999999999x")).2 = some .ErrRange := by
  rw [bytes_overflowThenLetter]
  decide

theorem boundOnSide_overflowThenLetter :
    (if (bytes "99999999999999999999x").head? = some 45 then minInt else maxInt) = maxInt := by
  rw [bytes_overflowThenLetter]
  rfl

/-- The values `main` keeps once it has passed the argument check: the port
and the timeout are the first components of what `Atoi` returned, its error is
dropped, and `ListenAndServe` is called. -/
theorem main_values (listenErr : String → Option String)
    (prog p t url : String) (rest : List String) :
    (main listenErr (prog :: p :: t :: url :: rest)).port = some (Atoi (bytes p)).1 ∧
    (main listenErr (prog :: p :: t :: url :: rest)).globals.timeout = (Atoi (bytes t)).1 ∧
    Effect.listen ("0.0.0.0:" ++ toString (Atoi (bytes p)).1)
      ∈ (main listenErr (prog :: p :: t :: url :: rest)).effects ∧
    (main listenErr (prog :: p :: t :: url :: rest)).exit
      = (listenErr ("0.0.0.0:" ++ toString (Atoi (bytes p)).1)).map (fun _ => 1) := by
  have hlen : ¬ (prog :: p :: t :: url :: rest).length < 4 := by
    simp only [List.length_cons]; omega
  simp only [main, hlen, if_false, List.getD_cons_succ, List.getD_cons_zero]
  cases listenErr ("0.0.0.0:" ++ toString (Atoi (bytes p)).1) <;> simp

/-- C10 as stated fails: the timeout argument `9223372036854775808` does not
parse (`Atoi` reports a range error), `main` goes on to serve, and the
resulting timeout is `2^63 - 1`, not 0. -/
theorem atoi_failure_value_counterexample :
    (Atoi (bytes "9223372036854775808")).2 = some .ErrRange ∧
    (main (fun _ => none) hugeTimeoutArgs).exit = none ∧
    (main (fun _ => none) hugeTimeoutArgs).globals.timeout = 9223372036854775807 ∧
    (main (fun _ => none) hugeTimeoutArgs).globals.timeout ≠ 0 := by
  have h := main_values (fun _ => none) "healthcheck" "8080" "9223372036854775808"
    "http://a.test" []
  rw [Atoi_hugeTimeout] at h
  obtain ⟨_, htimeout, _, hexit⟩ := h
  have hargs : hugeTimeoutArgs
      = ["healthcheck", "8080", "9223372036854775808", "http://a.test"] := rfl
  refine ⟨by rw [Atoi_hugeTimeout], ?_, ?_, ?_⟩
  · rw [hargs, hexit]; rfl
  · rw [hargs, htimeout]
  · rw [hargs, htimeout]; decide

/-- C10, amended: whatever strings stand in the port and timeout positions,
`main` drops the error of `Atoi`, keeps the value it returned and goes on to
call `ListenAndServe`.  That value is 0 when `Atoi` rejects the string with a
syntax error.  When `Atoi` rejects it with a range error the value is the bound
of `int` on the side of the sign: `-2^63` when the string begins with `-`,
`2^63 - 1` otherwise.  Every decimal literal outside the range of `int` is
rejected with a range error: digits, with or without a leading `+`, that
denote `2^63` or more give `2^63 - 1`, and `-` followed by digits that denote
more than `2^63` gives `-2^63`. -/
theorem main_value_on_atoi_failure (listenErr : String → Option String)
    (prog p t url : String) (rest : List String) :
    (Effect.listen ("0.0.0.0:" ++ toString (Atoi (bytes p)).1)
        ∈ (main listenErr (prog :: p :: t :: url :: rest)).effects ∧
      (main listenErr (prog :: p :: t :: url :: rest)).exit
        = (listenErr ("0.0.0.0:" ++ toString (Atoi (bytes p)).1)).map (fun _ => 1)) ∧
    -- the port
    ((Atoi (bytes p)).2 = some .ErrSyntax →
        (main listenErr (prog :: p :: t :: url :: rest)).port = some 0) ∧
    ((Atoi (bytes p)).2 = some .ErrRange →
        (main listenErr (prog :: p :: t :: url :: rest)).port
          = some (if (bytes p).head? = some 45 then minInt else maxInt)) ∧
    (∀ ds, (bytes p = ds ∨ bytes p = 43 :: ds) → ds ≠ [] → (∀ d ∈ ds, 48 ≤ d ∧ d ≤ 57) →
        2 ^ 63 ≤ decVal ds 0 →
        (Atoi (bytes p)).2 = some .ErrRange ∧
        (main listenErr (prog :: p :: t :: url :: rest)).port = some maxInt) ∧
    (∀ ds, bytes p = 45 :: ds → ds ≠ [] → (∀ d ∈ ds, 48 ≤ d ∧ d ≤ 57) →
        2 ^ 63 < decVal ds 0 →
        (Atoi (bytes p)).2 = some .ErrRange ∧
        (main listenErr (prog :: p :: t :: url :: rest)).port = some minInt) ∧
    -- the timeout
    ((Atoi (bytes t)).2 = some .ErrSyntax →
        (main listenErr (prog :: p :: t :: url :: rest)).globals.timeout = 0) ∧
    ((Atoi (bytes t)).2 = some .ErrRange →
        (main listenErr (prog :: p :: t :: url :: rest)).globals.timeout
          = if (bytes t).head? = some 45 then minInt else maxInt) ∧
    (∀ ds, (bytes t = ds ∨ bytes t = 43 :: ds) → ds ≠ [] → (∀ d ∈ ds, 48 ≤ d ∧ d ≤ 57) →
        2 ^ 63 ≤ decVal ds 0 →
        (Atoi (bytes t)).2 = some .ErrRange ∧
        (main listenErr (prog :: p :: t :: url :: rest)).globals.timeout = maxInt) ∧
    (∀ ds, bytes t = 45 :: ds → ds ≠ [] → (∀ d ∈ ds, 48 ≤ d ∧ d ≤ 57) →
        2 ^ 63 < decVal ds 0 →
        (Atoi (bytes t)).2 = some .ErrRange ∧
        (main listenErr (prog :: p :: t :: url :: rest)).globals.timeout = minInt) := by
  obtain ⟨hport, htimeout, hlisten, hexit⟩ := main_values listenErr prog p t url rest
  rw [hport, htimeout]
  have above : ∀ (s ds : List Nat), (s = ds ∨ s = 43 :: ds) → ds ≠ [] →
      (∀ d ∈ ds, 48 ≤ d ∧ d ≤ 57) → 2 ^ 63 ≤ decVal ds 0 →
      Atoi s = (maxInt, some .ErrRange) := by
    intro s ds hs hne hd hbig
    rcases hs with hs | hs
    · rw [hs]; exact Atoi_literal_above ds hne hd hbig
    · rw [hs]; exact Atoi_literal_plus ds hne hd hbig
  refine ⟨⟨hlisten, hexit⟩, ?_, ?_, ?_, ?_, ?_, ?_, ?_, ?_⟩
  · intro h; rw [(Atoi_error_value (bytes p)).1 h]
  · intro h; rw [(Atoi_error_value (bytes p)).2 h]; rfl
  · intro ds hs hne hd hbig
    rw [above (bytes p) ds hs hne hd hbig]
    exact ⟨rfl, rfl⟩
  · intro ds hds hne hd hbig
    rw [hds, Atoi_literal_below ds hne hd hbig]
    exact ⟨rfl, rfl⟩
  · intro h; rw [(Atoi_error_value (bytes t)).1 h]
  · intro h; rw [(Atoi_error_value (bytes t)).2 h]; rfl
  · intro ds hs hne hd hbig
    rw [above (bytes t) ds hs hne hd hbig]
    exact ⟨rfl, rfl⟩
  · intro ds hds hne hd hbig
    rw [hds, Atoi_literal_below ds hne hd hbig]
    exact ⟨rfl, rfl⟩

/-- Instance of C10 (amended): the empty string as port and `abc` as timeout
both give 0; as timeout, the literal `2^63` with and without `+` gives
`2^63 - 1`, the literal `-2^63 - 1` gives `-2^63`, and twenty nines followed by
a letter give `2^63 - 1`. -/
theorem main_value_on_atoi_failure_witness :
    (main (fun _ => none) ["healthcheck", "", "abc", "http://a.test"]).port = some 0 ∧
    (main (fun _ => none) ["healthcheck", "", "abc", "http://a.test"]).globals.timeout = 0 ∧
    ((Atoi (bytes "9223372036854775808")).2 = some .ErrRange ∧
      (main (fun _ => none)
        ["healthcheck", "8080", "9223372036854775808", "http://a.test"]).globals.timeout
        = maxInt) ∧
    ((Atoi (bytes "+9223372036854775808")).2 = some .ErrRange ∧
      (main (fun _ => none)
        ["healthcheck", "8080", "+9223372036854775808", "http://a.test"]).globals.timeout
        = maxInt) ∧
    ((Atoi (bytes "-9223372036854775809")).2 = some .ErrRange ∧
      (main (fun _ => none)
        ["healthcheck", "8080", "-9223372036854775809", "http://a.test"]).globals.timeout
        = minInt) ∧
    (main (fun _ => none)
      ["healthcheck", "8080", "99999999999999999999x", "http://a.test"]).globals.timeout
      = maxInt :=
  ⟨(main_value_on_atoi_failure (fun _ => none) "healthcheck" "" "abc" "http://a.test"
      []).2.1 (by rw [Atoi_empty]),
   (main_value_on_atoi_failure (fun _ => none) "healthcheck" "" "abc" "http://a.test"
      []).2.2.2.2.2.1 (by rw [Atoi_abc]),
   (main_value_on_atoi_failure (fun _ => none) "healthcheck" "8080" "9223372036854775808"
      "http://a.test" []).2.2.2.2.2.2.2.1
      [57, 50, 50, 51, 51, 55, 50, 48, 51, 54, 56, 53, 52, 55, 55, 53, 56, 48, 56]
      (Or.inl bytes_hugeTimeout) (by decide) (by decide) (by decide),
   (main_value_on_atoi_failure (fun _ => none) "healthcheck" "8080" "+9223372036854775808"
      "http://a.test" []).2.2.2.2.2.2.2.1
      [57, 50, 50, 51, 51, 55, 50, 48, 51, 54, 56, 53, 52, 55, 55, 53, 56, 48, 56]
      (Or.inr bytes_plusTimeout) (by decide) (by decide) (by decide),
   (main_value_on_atoi_failure (fun _ => none) "healthcheck" "8080" "-9223372036854775809"
      "http://a.test" []).2.2.2.2.2.2.2.2
      [57, 50, 50, 51, 51, 55, 50, 48, 51, 54, 56, 53, 52, 55, 55, 53, 56, 48, 57]
      bytes_tinyTimeout (by decide) (by decide) (by decide),
   ((main_value_on_atoi_failure (fun _ => none) "healthcheck" "8080" "99999999999999999999x"
      "http://a.test" []).2.2.2.2.2.2.1 Atoi_overflowThenLetter).trans
      boundOnSide_overflowThenLetter⟩

end Healthcheck
